import Mathlib

/-!
Verification of the media-monitoring feed collector core
(`src/streamlit_app.py`): a shallow embedding of the query translator,
the source classifier, the per-keyword feed collector, the URL
deduplicator and the filter engine, together with proofs of the
documented properties.

Python strings are modelled as Lean `String` (a list of characters);
Python `term in s` is contiguous-sublist containment, `s.lower()` is
per-character lowercasing (all inputs of interest are ASCII).  The
external feed provider, the URL quoting function and the date parser
are black boxes in the source, so they are parameters of the embedding:
`provider` maps a request URL to either a parse failure or a list of
feed entries, `qp` models `quote_plus`, and `dparse` models
`dateutil.parser.parse` (returning `none` on failure, as the source
swallows the exception).
-/

/-- One provider feed entry, before normalisation into an Article.
Every field the source reads with `entry.get(..., default)` is optional,
since the provider may omit it. `source_title` stands for the nested
`entry.get('source', {}).get('title', 'Unknown')` lookup. -/
structure Entry where
  title : Option String
  link : Option String
  published : Option String
  summary : Option String
  source_title : Option String
deriving DecidableEq

/-- The Article record built in `fetch_google_news_rss`, with the same
field names as the Python dict. `Published_Date` is the best-effort
parsed timestamp (`none` when absent or unparseable), kept abstract as
an integer timestamp. -/
structure Article where
  Keyword : String
  Title : String
  URL : String
  Published : String
  Published_Date : Option Int
  Source : String
  Source_Category : String
  Description : String
deriving DecidableEq

/-- Python `s.lower()`, per character (ASCII). -/
def pyLower (s : String) : String :=
  String.mk (s.data.map Char.toLower)

/-- Contiguous-sublist containment on character lists: the needle is a
prefix of some suffix of the haystack. -/
def containsSub (needle : List Char) : List Char → Bool
  | [] => needle.isEmpty
  | c :: rest => needle.isPrefixOf (c :: rest) || containsSub needle rest

/-- Python `needle in haystack` for strings: contiguous substring test. -/
def pyIn (needle haystack : String) : Bool :=
  containsSub needle.data haystack.data

/-- The `mainstream` rule list of `categorize_source`. -/
def mainstream : List String :=
  ["cnn", "bbc", "reuters", "associated press", "ap news", "bloomberg",
   "financial times", "wall street journal", "wsj", "new york times", "nyt",
   "washington post", "guardian", "telegraph", "fox news", "nbc", "abc",
   "cbs", "npr", "pbs", "usa today", "time", "newsweek", "economist",
   "forbes", "fortune", "business insider", "cnbc", "marketwatch", "axios"]

/-- The `trade_press` rule list of `categorize_source`. -/
def trade_press : List String :=
  ["techcrunch", "the verge", "wired", "ars technica", "zdnet", "cnet",
   "venturebeat", "recode", "engadget", "gizmodo", "mashable", "greentech",
   "renewable energy world", "energy storage news", "utility dive", "power",
   "pv magazine", "solar power world", "wind power monthly", "cleantechnica",
   "electrek", "green car reports", "inside evs", "automotive news",
   "trade", "industry week", "manufacturing", "chemical", "engineering"]

/-- The `blogs` rule list of `categorize_source`. -/
def blogs : List String :=
  ["medium", "substack", "blog", "blogger", "wordpress", "tumblr",
   "ghost", "writefreely", "newsletter", "independent", "personal site"]

/-- The `government_academic` rule list of `categorize_source`. -/
def government_academic : List String :=
  [".gov", "government", "department of", "ministry of", "agency",
   "university", "college", "institute", "research", "academic",
   ".edu", "journal", "nature", "science", "pnas", "arxiv"]

/-- The `ngo_thinktank` rule list of `categorize_source`. -/
def ngo_thinktank : List String :=
  ["greenpeace", "wwf", "nrdc", "sierra club", "friends of the earth",
   "brookings", "cato", "heritage", "cfr", "carnegie", "rand",
   "center for", "institute for", "foundation", "council on"]

/-- The `local_regional` rule list of `categorize_source`. -/
def local_regional : List String :=
  ["tribune", "gazette", "herald", "times", "post", "news", "daily",
   "chronicle", "journal", "observer", "examiner", "courier", "press",
   "local", "regional", "community", "county", "city"]

/-- `categorize_source` from the source: lower-case the name, then test
the six rule lists in the order written in the code, returning the first
category whose list has a substring match, else "Other". -/
def categorize_source (source_name : String) : String :=
  let source_lower := pyLower source_name
  if mainstream.any (fun term => pyIn term source_lower) then "Mainstream Media"
  else if trade_press.any (fun term => pyIn term source_lower) then "Trade Press"
  else if government_academic.any (fun term => pyIn term source_lower) then "Government/Academic"
  else if ngo_thinktank.any (fun term => pyIn term source_lower) then "NGO/Think Tank"
  else if blogs.any (fun term => pyIn term source_lower) then "Blogs/Independent"
  else if local_regional.any (fun term => pyIn term source_lower) then "Local/Regional"
  else "Other"

/-- The classifier's rule lists in the fixed evaluation order stated by
the spec: MainstreamMedia, TradePress, GovernmentAcademic, NgoThinkTank,
BlogsIndependent, LocalRegional. -/
def rule_lists : List (List String × String) :=
  [(mainstream, "Mainstream Media"),
   (trade_press, "Trade Press"),
   (government_academic, "Government/Academic"),
   (ngo_thinktank, "NGO/Think Tank"),
   (blogs, "Blogs/Independent"),
   (local_regional, "Local/Regional")]

/-- Modelled from the spec: ordered first-match classification — the
first rule list (in `rule_lists` order) containing any substring match
against the lower-cased name wins; no match yields "Other". Used to
state that `categorize_source` refines the spec's precedence policy. -/
def classify_spec (source_name : String) : String :=
  match rule_lists.find? (fun p => p.1.any (fun term => pyIn term (pyLower source_name))) with
  | some p => p.2
  | none => "Other"

/-- Python `s.replace(pat, rep)` on character lists: scan left to
right, replacing non-overlapping occurrences of a non-empty pattern.
The fuel argument (instantiated with the input length, which bounds the
number of steps) makes the recursion structural so that terms evaluate
by kernel reduction. -/
def replaceAux (pat rep : List Char) : Nat → List Char → List Char
  | _, [] => []
  | 0, s => s
  | fuel + 1, c :: rest =>
    if pat.isPrefixOf (c :: rest) && !pat.isEmpty then
      rep ++ replaceAux pat rep fuel ((c :: rest).drop pat.length)
    else
      c :: replaceAux pat rep fuel rest

/-- Python `s.replace(pat, rep)`. The empty-pattern case never arises
in the source (its patterns are " NOT " and " AND "). -/
def pyReplace (s pat rep : String) : String :=
  String.mk (replaceAux pat.data rep.data s.data.length s.data)

/-- `parse_boolean_search` from the source: rewrite " NOT " to " -",
then " AND " to " "; OR is passed through unchanged. A pure, total
string rewrite. -/
def parse_boolean_search (search_term : String) : String :=
  let s1 := pyReplace search_term " NOT " " -"
  pyReplace s1 " AND " " "

/-- The request URL built in `fetch_google_news_rss` from the quoted,
translated query. -/
def buildUrl (q : String) : String :=
  "https://news.google.com/rss/search?q=" ++ q ++ "&hl=en-US&gl=US&ceid=US:en"

/-- The Article dict built for one feed entry in
`fetch_google_news_rss`: every missing field defaults via
`entry.get`, the date is parsed only when the raw string is non-empty
(with `dparse` already returning `none` on a parse failure, as the
source swallows the exception), the source name defaults to "Unknown",
and `Keyword` is the original caller-supplied string. -/
def mkArticle (dparse : String → Option Int) (keyword : String) (e : Entry) : Article :=
  let published_str := e.published.getD ""
  let published_date := if published_str = "" then none else dparse published_str
  let source_name := e.source_title.getD "Unknown"
  { Keyword := keyword
    Title := e.title.getD ""
    URL := e.link.getD ""
    Published := published_str
    Published_Date := published_date
    Source := source_name
    Source_Category := categorize_source source_name
    Description := e.summary.getD "" }

/-- `fetch_google_news_rss` from the source: translate the keyword,
build the request URL, run the provider; on success map every entry to
an Article, on failure return no Articles. The second component models
the `st.error(f"Error fetching {keyword}: {e}")` report emitted on the
caught exception — a non-fatal event surfaced to the caller. -/
def fetch_google_news_rss (qp : String → String)
    (provider : String → Except String (List Entry))
    (dparse : String → Option Int) (keyword : String) :
    List Article × List String :=
  let parsed_keyword := parse_boolean_search keyword
  match provider (buildUrl (qp parsed_keyword)) with
  | Except.ok entries => (entries.map (fun e => mkArticle dparse keyword e), [])
  | Except.error err => ([], ["Error fetching " ++ keyword ++ ": " ++ err])

/-- `df.drop_duplicates(subset=['URL'], keep='first')`: keep a row iff
its URL value has not been seen in an earlier row; `seen` accumulates
the URL values of the rows already kept. -/
def dropDupURL (seen : List String) : List Article → List Article
  | [] => []
  | a :: rest =>
    if a.URL ∈ seen then dropDupURL seen rest
    else a :: dropDupURL (a.URL :: seen) rest

/-- The concatenated Article sequence accumulated by the keyword loop
of `collect_all_feeds` (`all_articles.extend(articles)` per keyword, in
input order). -/
def allArticles (qp : String → String) (provider : String → Except String (List Entry))
    (dparse : String → Option Int) (keywords : List String) : List Article :=
  (keywords.map (fun k => (fetch_google_news_rss qp provider dparse k).1)).flatten

/-- The failure reports accumulated across the keyword loop of
`collect_all_feeds`, in input order. -/
def allErrors (qp : String → String) (provider : String → Except String (List Entry))
    (dparse : String → Option Int) (keywords : List String) : List String :=
  (keywords.map (fun k => (fetch_google_news_rss qp provider dparse k).2)).flatten

/-- `collect_all_feeds` from the source: fetch every keyword
sequentially, concatenate the per-keyword Articles, then drop duplicate
URL rows keeping the first occurrence. The progress bar, status text
and pacing sleep are pure side channels and carry no data. -/
def collect_all_feeds (qp : String → String)
    (provider : String → Except String (List Entry))
    (dparse : String → Option Int) (keywords : List String) :
    List Article × List String :=
  (dropDupURL [] (allArticles qp provider dparse keywords),
   allErrors qp provider dparse keywords)

/-- The date-filter mask of `main`: an article row passes when its
parsed date is missing, or lies in the inclusive range from the start
of `start_date` to the last second of `end_date`
(`Timestamp(end_date) + 1 day - 1 second`). Timestamps are seconds. -/
def dateFilter (start_date end_date : Int) (l : List Article) : List Article :=
  let start_datetime := start_date * 86400
  let end_datetime := (end_date + 1) * 86400 - 1
  l.filter (fun a =>
    match a.Published_Date with
    | none => true
    | some d => decide (start_datetime ≤ d) && decide (d ≤ end_datetime))

/-- One step of a regular-expression match, modelling the fragment of
Python `re` semantics that the counterexample needs: a pattern of
literal characters and the metacharacter '.' (any character except a
newline), compared case-insensitively (`re.IGNORECASE`, ASCII). -/
def reMatchHere : List Char → List Char → Bool
  | [], _ => true
  | _ :: _, [] => false
  | p :: ps, c :: cs =>
    (if p = '.' then decide (c ≠ '\n') else decide (p.toLower = c.toLower))
      && reMatchHere ps cs

/-- `re.search`: try the pattern at every position of the string. -/
def reSearchAux (p : List Char) : List Char → Bool
  | [] => reMatchHere p []
  | c :: cs => reMatchHere p (c :: cs) || reSearchAux p cs

/-- `pandas.Series.str.contains(pat, case=False)` on one string: a
case-insensitive `re.search` of the pattern (the pandas default is
`regex=True`), modelled for patterns built from literals and '.'. -/
def reSearchCI (pat s : String) : Bool :=
  reSearchAux pat.data s.data

/-- Modelled from the spec: "case-insensitive substring match" — the
query taken literally, not as a regular expression. Used to compare
the spec's wording with the source's regex-based matching. -/
def substrCI (needle hay : String) : Bool :=
  pyIn (pyLower needle) (pyLower hay)

/-- The text-search step of `main`: when a search term is present,
keep rows whose Title or Description matches it (string matching
semantics supplied by `m`); an empty term leaves the rows unchanged. -/
def text_filter (m : String → String → Bool) (search_term : String)
    (l : List Article) : List Article :=
  if search_term = "" then l
  else l.filter (fun a => m search_term a.Title || m search_term a.Description)

/-- The `isin` membership steps of `main` (keyword, category, source):
an empty selection applies no restriction, a non-empty selection keeps
rows whose projected field is a member. -/
def membershipFilter (f : Article → String) (sel : List String)
    (l : List Article) : List Article :=
  if sel = [] then l else l.filter (fun a => sel.contains (f a))

/-- The caller-supplied filter state of the Search and Filter tab. -/
structure FilterSpec where
  search_term : String
  start_date : Int
  end_date : Int
  selected_keywords : List String
  selected_categories : List String
  selected_sources : List String
deriving DecidableEq

/-- The full filter pipeline of `main`, in source order: date filter,
then text search, then the keyword, category and source memberships. -/
def apply_filters (m : String → String → Bool) (spec : FilterSpec)
    (df : List Article) : List Article :=
  membershipFilter (fun a => a.Source) spec.selected_sources
    (membershipFilter (fun a => a.Source_Category) spec.selected_categories
      (membershipFilter (fun a => a.Keyword) spec.selected_keywords
        (text_filter m spec.search_term
          (dateFilter spec.start_date spec.end_date df))))

/-- The `temp_df` pipeline of the search-statistics block of `main`:
every filter except the text search, in source order. -/
def apply_nonsearch_filters (spec : FilterSpec) (df : List Article) :
    List Article :=
  membershipFilter (fun a => a.Source) spec.selected_sources
    (membershipFilter (fun a => a.Source_Category) spec.selected_categories
      (membershipFilter (fun a => a.Keyword) spec.selected_keywords
        (dateFilter spec.start_date spec.end_date df)))

/-- The search statistics of `main`: the before-search count
(`len(temp_df)`), the match count (`len(filtered_df)`), and the match
rate `matches / before * 100`, defined as 0 when the denominator is 0
(the source's `else 0` branch). -/
def search_stats (m : String → String → Bool) (spec : FilterSpec)
    (df : List Article) : Nat × Nat × ℚ :=
  let search_matches := (apply_filters m spec df).length
  let articles_before_search := (apply_nonsearch_filters spec df).length
  let match_rate : ℚ :=
    if 0 < articles_before_search then
      (search_matches : ℚ) / (articles_before_search : ℚ) * 100
    else 0
  (articles_before_search, search_matches, match_rate)

/-! ### Concrete test data for witnesses and counterexamples -/

/-- A date parser that always fails, for concrete runs. -/
def wDparse : String → Option Int := fun _ => none

/-- A feed entry with URL "u1". -/
def entry1 : Entry :=
  { title := some "t1", link := some "u1", published := none,
    summary := some "d1", source_title := some "Feed Zz" }

/-- A second feed entry with the same URL "u1". -/
def entry2 : Entry :=
  { title := some "t2", link := some "u1", published := none,
    summary := some "d2", source_title := some "Feed Zz" }

/-- A provider answering every request with the two "u1" entries. -/
def wProvider : String → Except String (List Entry) :=
  fun _ => Except.ok [entry1, entry2]

/-- The Article built from `entry1` under keyword "k". -/
def art1 : Article := mkArticle wDparse "k" entry1

/-- A feed entry with no link field (empty URL). -/
def entryA : Entry :=
  { title := some "a1", link := none, published := none,
    summary := none, source_title := none }

/-- A second, distinct feed entry with no link field. -/
def entryB : Entry :=
  { title := some "a2", link := none, published := none,
    summary := none, source_title := none }

/-- A provider answering every request with the two empty-URL entries. -/
def wProviderEmpty : String → Except String (List Entry) :=
  fun _ => Except.ok [entryA, entryB]

/-- The Article built from `entryA` under keyword "k". -/
def artA : Article := mkArticle wDparse "k" entryA

/-- A provider whose every request fails. -/
def provFail : String → Except String (List Entry) :=
  fun _ => Except.error "boom"

/-- A feed entry omitting every optional field. -/
def entryNone : Entry :=
  { title := none, link := none, published := none,
    summary := none, source_title := none }

/-- The Article built from `entry1` under the boolean keyword. -/
def artTesla : Article := mkArticle wDparse "Tesla NOT stock" entry1

/-- An article whose title and description contain no period. -/
def artAbc : Article :=
  { Keyword := "k", Title := "abc", URL := "u", Published := "",
    Published_Date := none, Source := "s", Source_Category := "Other",
    Description := "xyz" }

/-- A collected article with the given title and no parsed date. -/
def mkTestArticle (t : String) : Article :=
  { Keyword := "k", Title := t, URL := t, Published := "",
    Published_Date := none, Source := "s", Source_Category := "Other",
    Description := "" }

/-- Ten collected articles, three of whose titles match "solar"
case-insensitively. -/
def arts10 : List Article :=
  (["Solar power rises", "Wind energy", "Gas prices", "rooftop solar",
    "Oil", "Coal mines", "Hydro dam", "SOLAR boom", "Nuclear",
    "Biomass"]).map mkTestArticle

/-- A filter state with an active text query and no other restriction. -/
def spec0 : FilterSpec :=
  { search_term := "solar", start_date := 0, end_date := 0,
    selected_keywords := [], selected_categories := [],
    selected_sources := [] }

/-! ### Helper lemmas -/

theorem dropDupURL_pairwise (seen : List String) (l : List Article) :
    List.Pairwise (fun a b => a.URL ≠ b.URL) (dropDupURL seen l)
    ∧ ∀ b ∈ dropDupURL seen l, b.URL ∉ seen := by
  induction l generalizing seen with
  | nil => simp [dropDupURL]
  | cons a rest ih =>
    by_cases h : a.URL ∈ seen
    · simpa [dropDupURL, h] using ih seen
    · have ihc := ih (a.URL :: seen)
      rw [dropDupURL, if_neg h]
      constructor
      · refine List.Pairwise.cons ?_ ihc.1
        intro b hb
        have hb2 := ihc.2 b hb
        simp only [List.mem_cons, not_or] at hb2
        exact fun he => hb2.1 he.symm
      · intro b hb
        rcases List.mem_cons.mp hb with rfl | hb2
        · exact h
        · have hb3 := ihc.2 b hb2
          simp only [List.mem_cons, not_or] at hb3
          exact hb3.2

theorem dropDupURL_first (seen : List String) (l : List Article) (a : Article)
    (ha : a ∈ dropDupURL seen l) :
    a.URL ∉ seen ∧ l.find? (fun x => x.URL == a.URL) = some a := by
  induction l generalizing seen with
  | nil => simp [dropDupURL] at ha
  | cons b rest ih =>
    by_cases h : b.URL ∈ seen
    · rw [dropDupURL, if_pos h] at ha
      obtain ⟨h1, h2⟩ := ih seen ha
      refine ⟨h1, ?_⟩
      have hne : (b.URL == a.URL) = false := by
        refine beq_eq_false_iff_ne.mpr ?_
        intro he
        exact h1 (he ▸ h)
      rw [List.find?_cons_of_neg _ (by simp [hne]), h2]
    · rw [dropDupURL, if_neg h] at ha
      rcases List.mem_cons.mp ha with rfl | ha2
      · exact ⟨h, List.find?_cons_of_pos _ (by simp)⟩
      · obtain ⟨h1, h2⟩ := ih (b.URL :: seen) ha2
        simp only [List.mem_cons, not_or] at h1
        have hne : (b.URL == a.URL) = false :=
          beq_eq_false_iff_ne.mpr (fun he => h1.1 he.symm)
        exact ⟨h1.2, by rw [List.find?_cons_of_neg _ (by simp [hne]), h2]⟩

theorem allArticles_append (qp : String → String)
    (provider : String → Except String (List Entry))
    (dparse : String → Option Int) (ks1 ks2 : List String) :
    allArticles qp provider dparse (ks1 ++ ks2)
      = allArticles qp provider dparse ks1 ++ allArticles qp provider dparse ks2 := by
  simp [allArticles]

theorem allErrors_append (qp : String → String)
    (provider : String → Except String (List Entry))
    (dparse : String → Option Int) (ks1 ks2 : List String) :
    allErrors qp provider dparse (ks1 ++ ks2)
      = allErrors qp provider dparse ks1 ++ allErrors qp provider dparse ks2 := by
  simp [allErrors]

theorem filter_swap (p q : Article → Bool) (l : List Article) :
    List.filter p (List.filter q l) = List.filter q (List.filter p l) := by
  rw [List.filter_filter, List.filter_filter]
  exact List.filter_congr (fun a _ => Bool.and_comm (p a) (q a))

theorem text_filter_comm_membership (m : String → String → Bool) (q : String)
    (f : Article → String) (sel : List String) (l : List Article) :
    text_filter m q (membershipFilter f sel l)
      = membershipFilter f sel (text_filter m q l) := by
  by_cases hq : q = ""
  · simp [text_filter, hq]
  · by_cases hs : sel = []
    · simp [membershipFilter, hs]
    · simp only [text_filter, membershipFilter, if_neg hq, if_neg hs]
      exact filter_swap _ _ l

theorem apply_filters_eq (m : String → String → Bool) (spec : FilterSpec)
    (df : List Article) :
    apply_filters m spec df
      = text_filter m spec.search_term (apply_nonsearch_filters spec df) := by
  unfold apply_filters apply_nonsearch_filters
  rw [← text_filter_comm_membership, ← text_filter_comm_membership,
    ← text_filter_comm_membership]

/-! ### Claim theorems -/

/-- C1: in every collection run's result, retained Articles with
non-empty url have pairwise distinct url values, and for each url the
retained Article is the first one encountered in keyword order then
provider entry order (the first match in the concatenated sequence). -/
theorem dedup_invariant_collect (qp : String → String)
    (provider : String → Except String (List Entry))
    (dparse : String → Option Int) (ks : List String) :
    List.Pairwise (fun a b => a.URL ≠ "" → b.URL ≠ "" → a.URL ≠ b.URL)
      (collect_all_feeds qp provider dparse ks).1
    ∧ ∀ a ∈ (collect_all_feeds qp provider dparse ks).1,
        (allArticles qp provider dparse ks).find? (fun x => x.URL == a.URL)
          = some a := by
  constructor
  · exact ((dropDupURL_pairwise [] (allArticles qp provider dparse ks)).1).imp
      (fun h _ _ => h)
  · intro a ha
    exact (dropDupURL_first [] _ a ha).2

/-- Witness for C1 at a concrete run: the provider returns two entries
sharing URL "u1"; the Article built from the first entry is retained
and is the first match for its url. -/
theorem dedup_invariant_collect_witness :
    art1 ∈ (collect_all_feeds id wProvider wDparse ["k"]).1
    ∧ (allArticles id wProvider wDparse ["k"]).find?
        (fun x => x.URL == art1.URL) = some art1 :=
  ⟨by decide,
   (dedup_invariant_collect id wProvider wDparse ["k"]).2 art1 (by decide)⟩

/-- C2 counterexample: a run whose provider returns two distinct
entries with no link field yields two empty-url Articles before
deduplication but only one after it — the second empty-url Article is
discarded, so empty-url Articles are not exempt from deduplication. -/
theorem empty_url_exemption_cex :
    (allArticles id wProviderEmpty wDparse ["k"]).length = 2
    ∧ ((allArticles id wProviderEmpty wDparse ["k"]).filter
        (fun a => a.URL == "")).length = 2
    ∧ ((collect_all_feeds id wProviderEmpty wDparse ["k"]).1.filter
        (fun a => a.URL == "")).length = 1
    ∧ mkArticle wDparse "k" entryB ∉ (collect_all_feeds id wProviderEmpty wDparse ["k"]).1 := by
  decide

/-- C2 amended: Articles with empty url are not exempt from
deduplication — url values of the run's output, the empty string
included, are pairwise distinct, and when empty-url Articles occur the
one retained is the first empty-url Article encountered. -/
theorem empty_url_dedup_amended (qp : String → String)
    (provider : String → Except String (List Entry))
    (dparse : String → Option Int) (ks : List String) :
    ((collect_all_feeds qp provider dparse ks).1.map (fun a => a.URL)).Nodup
    ∧ ∀ a ∈ (collect_all_feeds qp provider dparse ks).1, a.URL = "" →
        (allArticles qp provider dparse ks).find? (fun x => x.URL == "")
          = some a := by
  constructor
  · exact List.pairwise_map.mpr
      (dropDupURL_pairwise [] (allArticles qp provider dparse ks)).1
  · intro a ha hU
    have h2 := (dropDupURL_first [] _ a ha).2
    rw [hU] at h2
    exact h2

/-- Witness for the amended C2: in the two-empty-url run, the retained
Article is the first empty-url one. -/
theorem empty_url_dedup_amended_witness :
    artA ∈ (collect_all_feeds id wProviderEmpty wDparse ["k"]).1
    ∧ artA.URL = ""
    ∧ (allArticles id wProviderEmpty wDparse ["k"]).find?
        (fun x => x.URL == "") = some artA :=
  ⟨by decide, by decide,
   (empty_url_dedup_amended id wProviderEmpty wDparse ["k"]).2 artA
     (by decide) (by decide)⟩

/-- C3: every Article emitted by the feed collector carries the
original, untranslated caller-supplied keyword, even though the
provider request is built from the translated query. -/
theorem article_keyword_untranslated (qp : String → String)
    (provider : String → Except String (List Entry))
    (dparse : String → Option Int) (keyword : String) :
    ∀ a ∈ (fetch_google_news_rss qp provider dparse keyword).1,
      a.Keyword = keyword := by
  intro a ha
  simp only [fetch_google_news_rss] at ha
  cases hp : provider (buildUrl (qp (parse_boolean_search keyword))) with
  | ok entries =>
    rw [hp] at ha
    simp only [List.mem_map] at ha
    obtain ⟨e, _, rfl⟩ := ha
    simp [mkArticle]
  | error err =>
    rw [hp] at ha
    simp at ha

/-- Witness for C3: for input "Tesla NOT stock" the provider query is
the translated "Tesla -stock", yet the emitted Article's keyword field
is the original string. -/
theorem article_keyword_untranslated_witness :
    parse_boolean_search "Tesla NOT stock" = "Tesla -stock"
    ∧ artTesla ∈ (fetch_google_news_rss id wProvider wDparse "Tesla NOT stock").1
    ∧ artTesla.Keyword = "Tesla NOT stock" :=
  ⟨by decide, by decide,
   article_keyword_untranslated id wProvider wDparse "Tesla NOT stock"
     artTesla (by decide)⟩

/-- C4: an Article whose parsed publication timestamp is missing passes
the date filter for every date range. -/
theorem missing_date_passes_filter (start_date end_date : Int)
    (l : List Article) (a : Article) (h1 : a ∈ l)
    (h2 : a.Published_Date = none) :
    a ∈ dateFilter start_date end_date l := by
  simp only [dateFilter]
  refine List.mem_filter.mpr ⟨h1, ?_⟩
  rw [h2]

/-- Witness for C4: a dateless article passes the degenerate one-day
range. -/
theorem missing_date_passes_filter_witness :
    artA ∈ [artA] ∧ artA.Published_Date = none
    ∧ artA ∈ dateFilter 0 0 [artA] :=
  ⟨by decide, by decide,
   missing_date_passes_filter 0 0 [artA] artA (by decide) (by decide)⟩

/-- C5: the source classifier tests its six rule lists in the fixed
order MainstreamMedia, TradePress, GovernmentAcademic, NgoThinkTank,
BlogsIndependent, LocalRegional with the first matching list winning
(it agrees with the ordered first-match policy `classify_spec`); the
name "Times" matches both a MainstreamMedia term and a LocalRegional
term and classifies as Mainstream Media. -/
theorem categorize_source_order :
    (∀ s, categorize_source s = classify_spec s)
    ∧ mainstream.any (fun term => pyIn term (pyLower "Times")) = true
    ∧ local_regional.any (fun term => pyIn term (pyLower "Times")) = true
    ∧ categorize_source "Times" = "Mainstream Media" := by
  refine ⟨fun s => ?_, by decide, by decide, by decide⟩
  simp only [categorize_source, classify_spec, rule_lists]
  cases h1 : mainstream.any (fun term => pyIn term (pyLower s)) <;>
    cases h2 : trade_press.any (fun term => pyIn term (pyLower s)) <;>
      cases h3 : government_academic.any (fun term => pyIn term (pyLower s)) <;>
        cases h4 : ngo_thinktank.any (fun term => pyIn term (pyLower s)) <;>
          cases h5 : blogs.any (fun term => pyIn term (pyLower s)) <;>
            cases h6 : local_regional.any (fun term => pyIn term (pyLower s)) <;>
              simp [List.find?, h1, h2, h3, h4, h5, h6]

/-- C6: the translator rewrites "A NOT B" to "A -B" and "A AND B" to
"A B", passes OR through unchanged, and rewrites every occurrence of
the NOT and AND token sequences; it is a total function by
construction. -/
theorem parse_boolean_search_rewrites :
    parse_boolean_search "A NOT B" = "A -B"
    ∧ parse_boolean_search "A AND B" = "A B"
    ∧ parse_boolean_search "A OR B" = "A OR B"
    ∧ parse_boolean_search "A NOT B NOT C" = "A -B -C"
    ∧ parse_boolean_search "A AND B AND C" = "A B C"
    ∧ parse_boolean_search "climate AND policy NOT Trump"
        = "climate policy -Trump" := by
  decide

/-- C7: when the provider request or parse for one keyword fails, that
fetch reports the failure as a non-fatal event and returns zero
Articles, and a run containing that keyword still yields exactly the
other keywords' Articles (deduplicated) plus the failure report. -/
theorem single_keyword_failure_nonfatal (qp : String → String)
    (provider : String → Except String (List Entry))
    (dparse : String → Option Int) (k e : String)
    (h : provider (buildUrl (qp (parse_boolean_search k))) = Except.error e) :
    (fetch_google_news_rss qp provider dparse k).1 = []
    ∧ (fetch_google_news_rss qp provider dparse k).2
        = ["Error fetching " ++ k ++ ": " ++ e]
    ∧ ∀ ks1 ks2 : List String,
        (collect_all_feeds qp provider dparse (ks1 ++ k :: ks2)).1
          = dropDupURL [] (allArticles qp provider dparse ks1
              ++ allArticles qp provider dparse ks2)
        ∧ (collect_all_feeds qp provider dparse (ks1 ++ k :: ks2)).2
          = allErrors qp provider dparse ks1
              ++ ("Error fetching " ++ k ++ ": " ++ e)
                :: allErrors qp provider dparse ks2 := by
  have hf : fetch_google_news_rss qp provider dparse k
      = ([], ["Error fetching " ++ k ++ ": " ++ e]) := by
    simp only [fetch_google_news_rss]
    rw [h]
  refine ⟨by rw [hf], by rw [hf], ?_⟩
  intro ks1 ks2
  have ha : allArticles qp provider dparse (k :: ks2)
      = allArticles qp provider dparse ks2 := by
    simp [allArticles, hf]
  have he : allErrors qp provider dparse (k :: ks2)
      = ("Error fetching " ++ k ++ ": " ++ e)
          :: allErrors qp provider dparse ks2 := by
    simp [allErrors, hf]
  constructor
  · show dropDupURL [] (allArticles qp provider dparse (ks1 ++ k :: ks2)) = _
    rw [allArticles_append, ha]
  · show allErrors qp provider dparse (ks1 ++ k :: ks2) = _
    rw [allErrors_append, he]

/-- Witness for C7: with a provider that always fails, the middle
keyword of a three-keyword run contributes nothing and the outer
keywords are still processed. -/
theorem single_keyword_failure_nonfatal_witness :
    provFail (buildUrl (id (parse_boolean_search "a"))) = Except.error "boom"
    ∧ (fetch_google_news_rss id provFail wDparse "a").1 = []
    ∧ (collect_all_feeds id provFail wDparse (["b"] ++ "a" :: ["c"])).1
        = dropDupURL [] (allArticles id provFail wDparse ["b"]
            ++ allArticles id provFail wDparse ["c"]) :=
  ⟨rfl,
   (single_keyword_failure_nonfatal id provFail wDparse "a" "boom" rfl).1,
   ((single_keyword_failure_nonfatal id provFail wDparse "a" "boom" rfl).2.2
     ["b"] ["c"]).1⟩

/-- C8, the code evaluated at the failing input: `str.contains`
defaults to regular-expression matching, so the query "." keeps an
article whose title and description do not contain "." as a substring.
The text filter is therefore a case-insensitive regex search, not the
literal case-insensitive substring match the claim states. -/
theorem text_search_regex_divergence :
    text_filter reSearchCI "." [artAbc] = [artAbc]
    ∧ substrCI "." artAbc.Title = false
    ∧ substrCI "." artAbc.Description = false := by
  decide

/-- C9: with a text query active, the reported before-search count is
the number of Articles passing every filter except the text query, the
match count is the number of those that also match the text query
(never exceeding the denominator), and the match rate is
matches divided by that denominator times 100, with 0 when the
denominator is 0. -/
theorem search_stats_denominator (m : String → String → Bool)
    (spec : FilterSpec) (df : List Article)
    (h : spec.search_term ≠ "") :
    (search_stats m spec df).1 = (apply_nonsearch_filters spec df).length
    ∧ (search_stats m spec df).2.1
        = ((apply_nonsearch_filters spec df).filter
            (fun a => m spec.search_term a.Title
              || m spec.search_term a.Description)).length
    ∧ (search_stats m spec df).2.1 ≤ (search_stats m spec df).1
    ∧ (search_stats m spec df).2.2
        = (if 0 < (search_stats m spec df).1 then
            ((search_stats m spec df).2.1 : ℚ)
              / ((search_stats m spec df).1 : ℚ) * 100
          else 0) := by
  have hm : (search_stats m spec df).2.1
      = ((apply_nonsearch_filters spec df).filter
          (fun a => m spec.search_term a.Title
            || m spec.search_term a.Description)).length := by
    show (apply_filters m spec df).length = _
    rw [apply_filters_eq]
    simp [text_filter, h]
  refine ⟨rfl, hm, ?_, rfl⟩
  rw [hm]
  exact List.length_filter_le _ _

/-- Witness for C9, the spec's match-rate scenario: 10 Articles pass
every non-text filter, 3 match the query "solar", and the reported
rate is 30. -/
theorem search_stats_denominator_witness :
    spec0.search_term ≠ ""
    ∧ (search_stats reSearchCI spec0 arts10).1 = 10
    ∧ (search_stats reSearchCI spec0 arts10).2.1 = 3
    ∧ (search_stats reSearchCI spec0 arts10).2.2 = 30
    ∧ (search_stats reSearchCI spec0 arts10).2.1
        ≤ (search_stats reSearchCI spec0 arts10).1 := by
  have h := search_stats_denominator reSearchCI spec0 arts10 (by decide)
  have h1 : (search_stats reSearchCI spec0 arts10).1 = 10 := by decide
  have h2 : (search_stats reSearchCI spec0 arts10).2.1 = 3 := by decide
  refine ⟨by decide, h1, h2, ?_, h.2.2.1⟩
  rw [h.2.2.2, h1, h2]
  norm_num

/-- C10: Article construction is total on entries with missing fields:
title, link and summary default to the empty string, a missing
published field yields an empty Published string and a null parsed
timestamp, and a missing nested source title defaults to "Unknown". -/
theorem entry_missing_field_defaults (dparse : String → Option Int)
    (kw : String) (e : Entry) :
    (e.title = none → (mkArticle dparse kw e).Title = "")
    ∧ (e.link = none → (mkArticle dparse kw e).URL = "")
    ∧ (e.summary = none → (mkArticle dparse kw e).Description = "")
    ∧ (e.published = none → (mkArticle dparse kw e).Published = ""
        ∧ (mkArticle dparse kw e).Published_Date = none)
    ∧ (e.source_title = none → (mkArticle dparse kw e).Source = "Unknown") := by
  refine ⟨fun h => ?_, fun h => ?_, fun h => ?_, fun h => ?_, fun h => ?_⟩
  · simp [mkArticle, h]
  · simp [mkArticle, h]
  · simp [mkArticle, h]
  · constructor <;> simp [mkArticle, h]
  · simp [mkArticle, h]

/-- Witness for C10: the entry with every field missing produces the
defaulted Article. -/
theorem entry_missing_field_defaults_witness :
    entryNone.title = none
    ∧ (mkArticle wDparse "k" entryNone).Title = ""
    ∧ (mkArticle wDparse "k" entryNone).URL = ""
    ∧ (mkArticle wDparse "k" entryNone).Description = ""
    ∧ ((mkArticle wDparse "k" entryNone).Published = ""
        ∧ (mkArticle wDparse "k" entryNone).Published_Date = none)
    ∧ (mkArticle wDparse "k" entryNone).Source = "Unknown" :=
  ⟨rfl,
   (entry_missing_field_defaults wDparse "k" entryNone).1 rfl,
   (entry_missing_field_defaults wDparse "k" entryNone).2.1 rfl,
   (entry_missing_field_defaults wDparse "k" entryNone).2.2.1 rfl,
   (entry_missing_field_defaults wDparse "k" entryNone).2.2.2.1 rfl,
   (entry_missing_field_defaults wDparse "k" entryNone).2.2.2.2 rfl⟩
